import Mathlib

/-!
Verification of the ahp_graph core (Device / DevicePort / DeviceGraph) against
its specification.  The Python package `src/ahp_graph` is shallowly embedded:
Python objects live in id-indexed heaps, `dict`s become association lists kept
in insertion order (Python dict equality ignores order, which the lemmas below
reflect by comparing lookups), Python `set`s become `Finset Nat`, and raised
exceptions become `Except.error`.  Unbounded loops (the `subOwner` walk and
recursive `add`/`flatten`) take an explicit fuel argument.
-/

namespace AhpGraph

/-- Association list lookup: first entry whose key matches, mirroring a Python
dict access (keys are unique in all reachable states). -/
def alookup [DecidableEq α] : List (α × β) → α → Option β
  | [], _ => none
  | (k, v) :: t, a => if k = a then some v else alookup t a

/-- Python dict assignment `d[k] = v`: replace in place if the key is present,
otherwise append at the end. -/
def ains [DecidableEq α] (l : List (α × β)) (k : α) (v : β) : List (α × β) :=
  if (alookup l k).isSome then l.map (fun kv => if kv.1 = k then (k, v) else kv)
  else l ++ [(k, v)]

/-- Python dict deletion `del d[k]` (the caller checks presence). -/
def adel [DecidableEq α] (l : List (α × β)) (k : α) : List (α × β) :=
  l.filter (fun kv => kv.1 ≠ k)

/-- Heap update: Python attribute assignment on the object with id `a`. -/
def updF [DecidableEq α] (f : α → β) (a : α) (b : β) : α → β :=
  fun x => if x = a then b else f x

theorem updF_self [DecidableEq α] (f : α → β) (a : α) (b : β) : updF f a b a = b := by
  simp [updF]

theorem updF_other [DecidableEq α] (f : α → β) (a : α) (b : β) (x : α) (h : x ≠ a) :
    updF f a b x = f x := by
  simp [updF, h]

@[simp] theorem isOk_ok (x : α) : (Except.ok x : Except String α).isOk = true := rfl

@[simp] theorem isOk_error (e : String) : (Except.error e : Except String α).isOk = false := rfl

theorem alookup_append_left [DecidableEq α] {l : List (α × β)} {k : α} {v : β}
    (h : alookup l k = some v) (l₂ : List (α × β)) : alookup (l ++ l₂) k = some v := by
  induction l with
  | nil => simp [alookup] at h
  | cons kv t ih =>
    by_cases hk : kv.1 = k
    · simp [alookup, hk] at h ⊢; simpa [alookup, hk] using h
    · simp only [alookup, hk, if_neg hk, List.cons_append] at h ⊢
      rcases kv with ⟨k', v'⟩
      simp only [alookup] at h ⊢
      by_cases hkk : k' = k
      · exact absurd hkk hk
      · simp [hkk] at h ⊢; exact ih h

theorem alookup_append_right [DecidableEq α] {l : List (α × β)} {k : α}
    (h : alookup l k = none) (l₂ : List (α × β)) : alookup (l ++ l₂) k = alookup l₂ k := by
  induction l with
  | nil => simp
  | cons kv t ih =>
    rcases kv with ⟨k', v'⟩
    simp only [alookup] at h
    by_cases hkk : k' = k
    · simp [hkk] at h
    · simp only [List.cons_append, alookup, hkk, if_neg hkk] at h ⊢
      exact ih h

theorem ains_fresh [DecidableEq α] {l : List (α × β)} {k : α} (v : β)
    (h : alookup l k = none) : ains l k v = l ++ [(k, v)] := by
  simp [ains, h]

theorem alookup_map_replace_self [DecidableEq α] (l : List (α × β)) (k : α) (v : β)
    (h : (alookup l k).isSome) :
    alookup (l.map (fun kv => if kv.1 = k then (k, v) else kv)) k = some v := by
  induction l with
  | nil => simp [alookup] at h
  | cons kv t ih =>
    rcases kv with ⟨a, b⟩
    by_cases hak : a = k
    · subst hak
      have hf : (if ((a, b) : α × β).1 = a then (a, v) else (a, b)) = (a, v) := if_pos rfl
      simp only [List.map_cons, hf]
      simp [alookup]
    · have h' : (alookup t k).isSome := by
        simpa [alookup, hak] using h
      have hf : (if ((a, b) : α × β).1 = k then (k, v) else (a, b)) = (a, b) := if_neg hak
      simp only [List.map_cons, hf]
      simpa [alookup, hak] using ih h'

theorem alookup_ains_self [DecidableEq α] (l : List (α × β)) (k : α) (v : β) :
    alookup (ains l k v) k = some v := by
  unfold ains
  by_cases h : (alookup l k).isSome
  · rw [if_pos h]
    exact alookup_map_replace_self l k v h
  · rw [if_neg h]
    have hnone : alookup l k = none := by
      cases hl : alookup l k with
      | none => rfl
      | some v' => rw [hl] at h; simp at h
    rw [alookup_append_right hnone]
    simp [alookup]

theorem alookup_map_replace [DecidableEq α] (l : List (α × β)) (k k' : α) (v : β)
    (h : k' ≠ k) :
    alookup (l.map (fun kv => if kv.1 = k then (k, v) else kv)) k' = alookup l k' := by
  induction l with
  | nil => simp [alookup]
  | cons kv t ih =>
    rcases kv with ⟨a, b⟩
    by_cases hak : a = k
    · subst hak
      have hne : ¬ a = k' := fun hh => h (hh ▸ rfl)
      have hf : (if ((a, b) : α × β).1 = a then (a, v) else (a, b)) = (a, v) := if_pos rfl
      simp only [List.map_cons, hf]
      simp [alookup, hne, ih]
    · have hf : (if ((a, b) : α × β).1 = k then (k, v) else (a, b)) = (a, b) := if_neg hak
      simp only [List.map_cons, hf]
      by_cases hak' : a = k'
      · simp [alookup, hak']
      · simp [alookup, hak', ih]

theorem alookup_ains_other [DecidableEq α] (l : List (α × β)) (k k' : α) (v : β)
    (h : k' ≠ k) : alookup (ains l k v) k' = alookup l k' := by
  unfold ains
  by_cases hs : (alookup l k).isSome
  · rw [if_pos hs]
    exact alookup_map_replace l k k' v h
  · rw [if_neg hs]
    cases hl' : alookup l k' with
    | some v' => rw [alookup_append_left hl']
    | none =>
      rw [alookup_append_right hl']
      simp [alookup, Ne.symm h]

/-- One entry of a class-level `PortInfo` dictionary: the tuple
`(limit, ptype, required, format)` stored by `PortInfo.add` in Device.py.
`limit = some 1` is a Single port, `none` an unbounded multi port. -/
structure PortInfoE where
  limit : Option Int
  ptype : Option String
  required : Bool
  format : String
deriving DecidableEq, Repr

/-- The mutable fields of a Python `Device` object relevant to DeviceGraph:
`name`, `library`, the class-level `portinfo`, `partition`, `subOwner` and the
`subs` list of `(device, slotName, slotIndex)` triples.  Devices are referred
to by their Python object identity, modelled as a `Nat` id into a heap. -/
structure DeviceData where
  name : String
  library : Option String
  portinfo : List (String × PortInfoE)
  partition : Option (Int × Option Int)
  subOwner : Option Nat
  subs : List (Nat × String × Option Int)
deriving DecidableEq, Repr

/-- The state of a `DeviceGraph` plus the heaps of Device and DevicePort
objects.  `devices` and `links` are insertion-ordered association lists
(Python dicts); `ports` is the set of linked DevicePorts; `portLink` is each
DevicePort object's mutable `link` attribute, `portDev`/`portName` its
immutable `device` and `name` attributes; `expanding`, `expand_new_links`,
`expand_new_devices` and `debug` are the corresponding DeviceGraph fields. -/
structure GraphState where
  devices : List (String × Nat)
  links : List ((Nat × Nat) × String)
  ports : Finset Nat
  portLink : Nat → Option Nat
  portDev : Nat → Nat
  portName : Nat → String
  devData : Nat → DeviceData
  expanding : Option Nat
  expandNewLinks : Option (List (Nat × Nat))
  expandNewDevices : Option (Finset Nat)
  debug : Bool

/-- `_orderedtuple(p0, p1)`: order a pair of DevicePorts by object id. -/
def _orderedtuple (a b : Nat) : Nat × Nat :=
  if a < b then (a, b) else (b, a)

/-- `p.device.portinfo[p.name][1]`: the type tag of a port, a KeyError when the
port name is absent from the schema. -/
def portinfoType (st : GraphState) (p : Nat) : Except String (Option String) :=
  match alookup (st.devData (st.portDev p)).portinfo (st.portName p) with
  | none => .error "KeyError: portinfo"
  | some info => .ok info.ptype

/-- `DeviceGraph.check_port_types(p0, p1)`. -/
def check_port_types (st : GraphState) (p0 p1 : Nat) : Except String Bool :=
  match portinfoType st p0 with
  | .error e => .error e
  | .ok t0 =>
    match portinfoType st p1 with
    | .error e => .error e
    | .ok t1 => .ok (decide (t0 = t1))

/-- The `while dev.subOwner is not None: dev = dev.subOwner` walk inside
`DeviceGraph.add`, fuel-bounded. -/
def topOwner (st : GraphState) : Nat → Nat → Except String Nat
  | 0, _ => .error "fuel exhausted"
  | f + 1, d =>
    match (st.devData d).subOwner with
    | none => .ok d
    | some o => topOwner st f o

/-- `DeviceGraph.add(device, sub)` together with its inner
`for (dev, _, _) in device.subs: self.add(dev, True)` loop, as one
fuel-structural recursion (so that concrete runs reduce definitionally).
A `Sum.inl (d, sub)` task is one `add(d, sub)` call: raise on a duplicate
name, rename and inherit the partition while an assembly is expanding,
register the device, then recursively add the top-level owner (when a
submodule and `not sub`) and every entry of `subs`.  A `Sum.inr` task is the
remaining `subs` loop. -/
def addAux : Nat → GraphState → Sum (Nat × Bool) (List (Nat × String × Option Int)) →
    Except String GraphState
  | _, st, Sum.inr [] => .ok st
  | 0, _, _ => .error "fuel exhausted"
  | f + 1, st, Sum.inr (s :: t) =>
    match addAux f st (Sum.inl (s.1, true)) with
    | .error e => .error e
    | .ok st' => addAux f st' (Sum.inr t)
  | f + 1, st, Sum.inl (d, sub) =>
    let dd := st.devData d
    if (alookup st.devices dd.name).isSome then
      .error ("Device name " ++ dd.name ++ " already in graph")
    else
      let st₁ :=
        match st.expanding with
        | none => st
        | some x =>
          let xd := st.devData x
          let newName := xd.name ++ "." ++ dd.name
          let newPart := if xd.partition.isSome && decide (dd.partition = none)
                         then xd.partition else dd.partition
          { st with devData := updF st.devData d { dd with name := newName, partition := newPart } }
      let dd₁ := st₁.devData d
      let st₂ := { st₁ with
        devices := ains st₁.devices dd₁.name d,
        expandNewDevices := Option.map (fun s => insert d s) st₁.expandNewDevices }
      match (if dd₁.subOwner.isSome && !sub then
               match topOwner st₂ f d with
               | .error e => .error e
               | .ok top => addAux f st₂ (Sum.inl (top, false))
             else .ok st₂ : Except String GraphState) with
      | .error e => .error e
      | .ok st₃ => addAux f st₃ (Sum.inr (st₃.devData d).subs)

/-- `DeviceGraph.add(device, sub)`. -/
def add (f : Nat) (st : GraphState) (d : Nat) (sub : Bool) : Except String GraphState :=
  addAux f st (Sum.inl (d, sub))

/-- `DeviceGraph._link_other_port(p0, p1)`: splice `p1` into the external link
of the expanding device's port `p0`; a no-op when `p0` has no link. -/
def _link_other_port (f : Nat) (st : GraphState) (p0 p1 : Nat) : Except String GraphState :=
  match st.portLink p0 with
  | none => .ok st
  | some p2 =>
    match check_port_types st p1 p2 with
    | .error e => .error e
    | .ok false => .error "Port type mismatch"
    | .ok true =>
      let st₁ := { st with
        portLink := updF (updF (updF st.portLink p0 none) p2 (some p1)) p1 (some p2) }
      if p0 ∈ st₁.ports then
        let st₃ := { st₁ with ports := insert p1 (st₁.ports.erase p0) }
        match alookup st₃.links (_orderedtuple p0 p2) with
        | none => .error "KeyError: links.pop"
        | some latency =>
          let st₄ := { st₃ with links := adel st₃.links (_orderedtuple p0 p2) }
          match (if (alookup st₄.devices ((st₄.devData (st₄.portDev p1)).name)).isNone
                 then add f st₄ (st₄.portDev p1) false
                 else .ok st₄) with
          | .error e => .error e
          | .ok st₅ =>
            .ok { st₅ with
              links := ains st₅.links (_orderedtuple p1 p2) latency,
              expandNewLinks := Option.map (fun l => l ++ [(p1, p2)]) st₅.expandNewLinks }
      else .error "KeyError: ports.remove"

/-- The non-expanding body of `DeviceGraph.link`: double-link check, type
check, auto-`add` of both devices, then record the link and the port usage. -/
def linkMain (f : Nat) (st : GraphState) (p0 p1 : Nat) (latency : String) :
    Except String GraphState :=
  if p0 ∈ st.ports ∨ p1 ∈ st.ports then .error "already linked to"
  else
    match check_port_types st p0 p1 with
    | .error e => .error e
    | .ok false => .error "Port type mismatch"
    | .ok true =>
      match (if (alookup st.devices ((st.devData (st.portDev p0)).name)).isNone
             then add f st (st.portDev p0) false
             else .ok st) with
      | .error e => .error e
      | .ok st₁ =>
        match (if (alookup st₁.devices ((st₁.devData (st₁.portDev p1)).name)).isNone
               then add f st₁ (st₁.portDev p1) false
               else .ok st₁) with
        | .error e => .error e
        | .ok st₂ =>
          let st₃ := { st₂ with ports := insert p1 (insert p0 st₂.ports) }
          let st₄ := if st₃.portLink p0 = none ∧ st₃.portLink p1 = none
                     then { st₃ with
                       portLink := updF (updF st₃.portLink p0 (some p1)) p1 (some p0) }
                     else st₃
          .ok { st₄ with
            links := ains st₄.links (_orderedtuple p0 p1) latency,
            expandNewLinks :=
              Option.map (fun l => l ++ [_orderedtuple p0 p1]) st₄.expandNewLinks }

/-- `DeviceGraph.link(p0, p1, latency)`.  The Python callable-check is not
modelled: every value of the embedded port type is a DevicePort.  While a
device is expanding, a link naming one of its ports is spliced via
`_link_other_port`. -/
def link (f : Nat) (st : GraphState) (p0 p1 : Nat) (latency : String) :
    Except String GraphState :=
  match st.expanding with
  | some x =>
    if st.portDev p0 = x then _link_other_port f st p0 p1
    else if st.portDev p1 = x then _link_other_port f st p1 p0
    else linkMain f st p0 p1 latency
  | none => linkMain f st p0 p1 latency

/-- Run a per-element check, stopping at the first raised error: the shape of
every `for ... : if bad: raise` loop in DeviceGraph. -/
def firstErr (g : α → Except String Unit) : List α → Except String Unit
  | [] => .ok ()
  | x :: t =>
    match g x with
    | .error e => .error e
    | .ok _ => firstErr g t

/-- Whether some entry of the link registry touches `(device, port name)`:
the `d2ports` membership test computed by `verify_links`. -/
def devPortLinked (st : GraphState) (did : Nat) (pname : String) : Bool :=
  st.links.any (fun kv =>
    (decide (st.portDev kv.1.1 = did) && decide (st.portName kv.1.1 = pname)) ||
    (decide (st.portDev kv.1.2 = did) && decide (st.portName kv.1.2 = pname)))

/-- The inner loop of `verify_links` over one device's `portinfo`: raise when
a required port name has no link touching the device. -/
def verifyDevice (st : GraphState) (did : Nat) : Except String Unit :=
  firstErr (fun pi =>
      if pi.2.required && !devPortLinked st did pi.1
      then .error ((st.devData did).name ++ " requires port " ++ pi.1)
      else .ok ())
    (st.devData did).portinfo

/-- `DeviceGraph.verify_links()`.  The Python method only reads the graph (its
`d2ports` map is a local), so it is embedded as a pure check returning `()` or
the first raised error. -/
def verify_links (st : GraphState) : Except String Unit :=
  firstErr (fun kv => verifyDevice st kv.2) st.devices

/-- `DeviceGraph.check_partition()`. -/
def check_partition (st : GraphState) : Except String Unit :=
  firstErr (fun kv =>
      if (st.devData kv.2).partition = none
      then .error ("No partition for Device: " ++ (st.devData kv.2).name)
      else .ok ())
    st.devices

/-- `Device.dealloc()` as far as the graph model sees it: clear `subs` and
`subOwner` on the heap entry (the per-device port cache is outside this
state). -/
def dealloc (st : GraphState) (d : Nat) : GraphState :=
  { st with devData := updF st.devData d { st.devData d with subs := [], subOwner := none } }

/-- An element of the `devices_to_keep` Python set built by `prune`: either a
Device (by object id) or — as the source actually writes it — a raw
`(device, slotName, slotIndex)` tuple taken from a `subs` list. -/
abbrev KElem := Sum Nat (Nat × String × Option Int)

/-- `d.partition[0]`, a TypeError when the partition is `None`. -/
def getRank (st : GraphState) (d : Nat) : Except String Int :=
  match (st.devData d).partition with
  | none => .error "TypeError: NoneType partition"
  | some p => .ok p.1

/-- The `while d_so: keep.add(d_so); d_so = d_so.subOwner` walk in `prune`,
collecting the whole `subOwner` chain. -/
def ownerChain (st : GraphState) : Nat → Nat → Except String (List Nat)
  | 0, _ => .error "fuel exhausted"
  | f + 1, d =>
    match (st.devData d).subOwner with
    | none => .ok []
    | some o =>
      match ownerChain st f o with
      | .error e => .error e
      | .ok t => .ok (o :: t)

/-- The first loop of `prune`: for every link decide keep or remove.  A kept
link contributes both end devices, their `subOwner` chains and — verbatim from
the source — the raw tuples of their `subs` lists to `devices_to_keep`. -/
def pruneScan (f : Nat) (st : GraphState) (rank : Int) :
    List ((Nat × Nat) × String) → List KElem × List (Nat × Nat) →
    Except String (List KElem × List (Nat × Nat))
  | [], acc => .ok acc
  | kv :: t, (keep, toRemove) =>
    let d0 := st.portDev kv.1.1
    let d1 := st.portDev kv.1.2
    match getRank st d0 with
    | .error e => .error e
    | .ok r0 =>
      let keepBranch : Except String (List KElem) :=
        match ownerChain st f d0 with
        | .error e => .error e
        | .ok c0 =>
          match ownerChain st f d1 with
          | .error e => .error e
          | .ok c1 =>
            .ok (keep ++ [Sum.inl d0, Sum.inl d1] ++ c0.map Sum.inl ++ c1.map Sum.inl
                 ++ (st.devData d0).subs.map Sum.inr ++ (st.devData d1).subs.map Sum.inr)
      if r0 = rank then
        match keepBranch with
        | .error e => .error e
        | .ok keep' => pruneScan f st rank t (keep', toRemove)
      else
        match getRank st d1 with
        | .error e => .error e
        | .ok r1 =>
          if r1 = rank then
            match keepBranch with
            | .error e => .error e
            | .ok keep' => pruneScan f st rank t (keep', toRemove)
          else pruneScan f st rank t (keep, toRemove ++ [kv.1])

/-- The second loop of `prune`: delete each removed link, clear both port
`link` fields and discharge both ports from the usage set. -/
def removeLinks : GraphState → List (Nat × Nat) → Except String GraphState
  | st, [] => .ok st
  | st, (a, b) :: t =>
    match alookup st.links (a, b) with
    | none => .error "KeyError: del links"
    | some _ =>
      let st₁ := { st with
        links := adel st.links (a, b),
        portLink := updF (updF st.portLink a none) b none }
      if a ∈ st₁.ports then
        let st₂ := { st₁ with ports := st₁.ports.erase a }
        if b ∈ st₂.ports then
          removeLinks { st₂ with ports := st₂.ports.erase b } t
        else .error "KeyError: ports.remove"
      else .error "KeyError: ports.remove"

/-- The third loop of `prune`: `del self.devices[device.name]` plus
`device.dealloc()` for every device not kept. -/
def removeDevices : GraphState → List Nat → Except String GraphState
  | st, [] => .ok st
  | st, d :: t =>
    match alookup st.devices ((st.devData d).name) with
    | none => .error "KeyError: del devices"
    | some _ =>
      removeDevices (dealloc { st with devices := adel st.devices ((st.devData d).name) } d) t

/-- `DeviceGraph.prune(rank)`. -/
def prune (f : Nat) (st : GraphState) (rank : Int) : Except String GraphState :=
  match check_partition st with
  | .error e => .error e
  | .ok _ =>
    match pruneScan f st rank st.links ([], []) with
    | .error e => .error e
    | .ok (keep, toRemove) =>
      match removeLinks st toRemove with
      | .error e => .error e
      | .ok st₁ =>
        removeDevices st₁
          ((st₁.devices.map (fun kv => kv.2)).dedup.filter
            (fun (i : Nat) => !(keep.any (fun e => decide (e = Sum.inl i)))))

/-- Whether some link endpoint belongs to a device carrying the given name:
the sanity scan at the end of `_expand_device`. -/
def linksReferenceName (st : GraphState) (nm : String) : Bool :=
  st.links.any (fun kv =>
    decide ((st.devData (st.portDev kv.1.1)).name = nm) ||
    decide ((st.devData (st.portDev kv.1.2)).name = nm))

/-- The state reached by `_expand_device` after a successful expansion call:
`expanding` reset, the device removed from the registry and deallocated. -/
def cleanupState (st₂ : GraphState) (d : Nat) : GraphState :=
  dealloc { st₂ with
    expanding := none,
    devices := adel st₂.devices ((st₂.devData d).name) } d

/-- The tail of `DeviceGraph._expand_device` after `device.expand(self)`
returned: reset `expanding`, delete and dealloc the device, and — only when
`self.debug` is set — raise if a link still references a device with the
expanded device's name. -/
def expandCleanup (st₂ : GraphState) (d : Nat) : Except String GraphState :=
  match alookup st₂.devices ((st₂.devData d).name) with
  | none => .error "KeyError: del devices"
  | some _ =>
    let st₄ := cleanupState st₂ d
    if st₄.debug then
      if linksReferenceName st₄ ((st₄.devData d).name)
      then .error "Unexpanded link"
      else .ok st₄
    else .ok st₄

/-- `DeviceGraph._expand_device(device)`.  The Python call
`device.expand(self)` runs arbitrary Device-variant code; it is modelled by
the function argument `impl`, which receives the graph with `expanding` set. -/
def _expand_device (impl : GraphState → Except String GraphState) (st : GraphState) (d : Nat) :
    Except String GraphState :=
  match impl { st with expanding := some d } with
  | .error e => .error e
  | .ok st₂ => expandCleanup st₂ d

/-- The `rank == dev.partition[0]` conjunct of the `flatten` selection loop:
a TypeError when the partition is unset. -/
def rankCheck (st : GraphState) (rank : Option Int) (dev : Nat) : Except String Bool :=
  match rank with
  | none => .ok true
  | some r =>
    match (st.devData dev).partition with
    | none => .error "TypeError: NoneType partition"
    | some pr => .ok (decide (pr.1 = r))

/-- The candidate-selection loop of `DeviceGraph.flatten`: collect into a set
every assembly (`library is None`) matching the optional dotted-name prefix
and the optional rank (reading `partition[0]`, a TypeError when unset). -/
def selectAssemblies (st : GraphState) (name : Option String) (rank : Option Int) :
    List Nat → Finset Nat → Except String (Finset Nat)
  | [], acc => .ok acc
  | dev :: t, acc =>
    if (st.devData dev).library.isSome then selectAssemblies st name rank t acc
    else
      let a1 : Bool :=
        match name with
        | none => true
        | some nm =>
          decide (nm.splitOn "." =
            (((st.devData dev).name.splitOn ".").take (nm.splitOn ".").length))
      match rankCheck st rank dev with
      | .error e => .error e
      | .ok a2 =>
        selectAssemblies st name rank t (if a1 && a2 then insert dev acc else acc)

/-- Sequentially expand the selected assemblies (`for device in assemblies:
self._expand_device(device)`). -/
def expandAll (impl : Nat → GraphState → Except String GraphState) :
    GraphState → List Nat → Except String GraphState
  | st, [] => .ok st
  | st, d :: t =>
    match _expand_device (impl d) st d with
    | .error e => .error e
    | .ok st' => expandAll impl st' t

/-- The body of one `DeviceGraph.flatten` pass: select matching assemblies
among the candidates (the registry when `expand` is not given), stop when
none or when `levels == 0`, otherwise expand them all and recurse — through
the `recurse` callback — with `levels - 1`, unless an explicit candidate set
was supplied (single pass). -/
def flattenPass (impl : Nat → GraphState → Except String GraphState)
    (st : GraphState) (levels : Option Int) (name : Option String) (rank : Option Int)
    (expand : Option (List Nat))
    (recurse : GraphState → Option Int → Except String GraphState) :
    Except String GraphState :=
  if levels = some 0 then .ok st
  else
    match selectAssemblies st name rank
      (match expand with
       | some e => e
       | none => st.devices.map (fun kv => kv.2)) ∅ with
    | .error e => .error e
    | .ok assemblies =>
      if assemblies = ∅ then .ok st
      else
        match expandAll impl st (Finset.sort (fun a b => a ≤ b) assemblies) with
        | .error e => .error e
        | .ok st' =>
          match expand with
          | none => recurse st' (levels.map (fun l => l - 1))
          | some _ => .ok st'

/-- `DeviceGraph.flatten(levels, name, rank, expand)`. -/
def flatten (fuel : Nat) (impl : Nat → GraphState → Except String GraphState)
    (st : GraphState) (levels : Option Int) (name : Option String) (rank : Option Int)
    (expand : Option (List Nat)) : Except String GraphState :=
  match fuel with
  | 0 => .error "fuel exhausted"
  | f + 1 =>
    flattenPass impl st levels name rank expand
      (fun st' lv => flatten f impl st' lv name rank none)

/-- Evaluate a Boolean observation on the success state of an operation;
`false` when the operation raised. -/
def exceptTest (r : Except String GraphState) (p : GraphState → Bool) : Bool :=
  match r with
  | .ok s => p s
  | .error _ => false

/-- A key of the Python `Device.ports` dict, which mixes plain port-name
strings (the multi-port counter hack) with `(name, number)` tuples. -/
abbrev CacheKey := Sum String (String × Option Int)

/-- A value of the Python `Device.ports` dict: an `int` counter under a string
key, or a DevicePort object (by id) under a tuple key. -/
abbrev CacheVal := Sum Int Nat

/-- A standalone `Device` as `Device.port` sees it: its name, schema, the
`ports` cache and an allocator for fresh DevicePort object identities. -/
structure PDevice where
  dname : String
  portinfo : List (String × PortInfoE)
  cache : List (CacheKey × CacheVal)
  nextId : Nat
deriving DecidableEq, Repr

/-- `self.ports.get(port, dflt)` for the multi-port counter.  Finding a
DevicePort under a string key cannot happen through the API; it is mapped to
the TypeError Python would raise on the ensuing integer comparison. -/
def getCount (d : PDevice) (port : String) (dflt : Int) : Except String Int :=
  match alookup d.cache (Sum.inl port) with
  | none => .ok dflt
  | some (Sum.inl n) => .ok n
  | some (Sum.inr _) => .error "TypeError: port count"

/-- The common tail of `Device.port`: look up `(port, number)` in the cache,
allocating and caching a fresh DevicePort when absent.  The Boolean reports
whether the Single-port warning was printed.  A counter found under a tuple
key cannot happen through the API and is mapped to an error. -/
def mkPort (d : PDevice) (port : String) (number : Option Int) (warned : Bool) :
    Except String (PDevice × Nat × Bool) :=
  match alookup d.cache (Sum.inr (port, number)) with
  | some (Sum.inr pid) => .ok (d, pid, warned)
  | some (Sum.inl _) => .error "TypeError: cached count under tuple key"
  | none =>
    .ok ({ d with
            cache := ains d.cache (Sum.inr (port, number)) (Sum.inr d.nextId),
            nextId := d.nextId + 1 },
         d.nextId, warned)

/-- `Device.port(port, number)` of the current source: an unknown name raises;
a Single port (`limit == 1`) merely prints a warning when a number is supplied
and proceeds with that number as part of the cache key; a multi port draws or
checks the number against the counter and the limit, updates the counter, and
caches the port. -/
def PDevice.port (d : PDevice) (port : String) (number : Option Int) :
    Except String (PDevice × Nat × Bool) :=
  match alookup d.portinfo port with
  | none => .error ("Unknown port in " ++ d.dname ++ ": " ++ port)
  | some info =>
    if info.limit = some 1 then
      mkPort d port number number.isSome
    else
      match (match number with
             | none => getCount d port 0
             | some n => .ok n : Except String Int) with
      | .error e => .error e
      | .ok num =>
        match (match info.limit with
               | none => .ok ()
               | some lim =>
                 if num ≥ lim then .error "Too many connections"
                 else .ok () : Except String Unit) with
        | .error e => .error e
        | .ok _ =>
          match getCount d port 1 with
          | .error e => .error e
          | .ok c =>
            mkPort { d with cache := ains d.cache (Sum.inl port) (Sum.inl (max (num + 1) c)) }
              port (some num) false

/-! ### Concrete states used by counterexamples and witnesses -/

/-- A Single-cardinality, required port schema entry of type tag T. -/
def piT : PortInfoE := ⟨some 1, some "T", true, ".p#"⟩

/-- C2 scenario: owner `O` (id 0) with submodule `S` (id 1) in its `subs`
list, plus `B` (id 2); one link between port 0 (on O) and port 1 (on B); all
three devices on rank 0. -/
def stC2 : GraphState where
  devices := [("O", 0), ("S", 1), ("B", 2)]
  links := [((0, 1), "1s")]
  ports := {0, 1}
  portLink := fun p => if p = 0 then some 1 else if p = 1 then some 0 else none
  portDev := fun p => if p = 0 then 0 else 2
  portName := fun p => if p = 0 then "op" else "bp"
  devData := fun d =>
    if d = 0 then ⟨"O", some "lib", [("op", piT)], some (0, none), none, [(1, "slot", none)]⟩
    else if d = 1 then ⟨"S", some "lib", [], some (0, none), some 0, []⟩
    else ⟨"B", some "lib", [("bp", piT)], some (0, none), none, []⟩
  expanding := none
  expandNewLinks := none
  expandNewDevices := none
  debug := false

/-- C4 scenario: an empty graph; device `O` (id 0) owns submodule `S` (id 1);
`B` (id 2) is standalone; port 10 lives on S, port 11 on B, same type tag. -/
def stC4 : GraphState where
  devices := []
  links := []
  ports := ∅
  portLink := fun _ => none
  portDev := fun p => if p = 10 then 1 else 2
  portName := fun p => if p = 10 then "p" else "q"
  devData := fun d =>
    if d = 0 then ⟨"O", some "lib", [], none, none, [(1, "slot", none)]⟩
    else if d = 1 then ⟨"S", some "lib", [("p", piT)], none, some 0, []⟩
    else ⟨"B", some "lib", [("q", piT)], none, none, []⟩
  expanding := none
  expandNewLinks := none
  expandNewDevices := none
  debug := false

/-- C2: the claim fails on the code.  In `prune`, the loop `for s0 in d0.subs:
devices_to_keep.add(s0)` adds the raw `(device, slotName, slotIndex)` tuples —
not the submodule Device objects — to the keep set, so a kept device's
submodule is pruned: here owner `O` is kept (its link touches rank 0) but its
submodule `S` is deleted from the registry. -/
theorem C2_prune_drops_kept_owners_submodule :
    (stC2.devData 1).subOwner = some 0 ∧
    (stC2.devData 0).subs.map (fun s => s.1) = [1] ∧
    alookup stC2.devices "S" = some 1 ∧
    exceptTest (prune 3 stC2 0)
      (fun s =>
        decide (alookup s.devices "O" = some 0) &&
        decide (alookup s.devices "B" = some 2) &&
        decide (alookup s.devices "S" = none)) = true := by
  refine ⟨rfl, rfl, by decide, by decide⟩

/-- C4: the claim fails on the code.  Linking a port of the unregistered
submodule `S` auto-adds `S`, then walks `subOwner` to the owner `O`; adding
`O` re-adds every device in its `subs` list, including `S` itself, which hits
the duplicate-name check and raises — the documented automatic registration
crashes instead of succeeding. -/
theorem C4_link_submodule_autoadd_raises :
    (stC4.devData 1).subOwner = some 0 ∧
    (stC4.devData 0).subs.map (fun s => s.1) = [1] ∧
    stC4.devices = [] ∧
    link 9 stC4 10 11 "1s" = .error "Device name S already in graph" := by
  refine ⟨rfl, rfl, rfl, by rfl⟩

/-- C1 scenario: assembly `X` (id 0) is mid-expansion; its boundary port 0 is
externally linked to port 1 on `A` with exterior latency `5s`; port 2 lives on
the interior device `B`, already registered. -/
def stC1 : GraphState where
  devices := [("X", 0), ("A", 1), ("B", 2)]
  links := [((0, 1), "5s")]
  ports := {0, 1}
  portLink := fun p => if p = 0 then some 1 else if p = 1 then some 0 else none
  portDev := fun p => p
  portName := fun p => if p = 0 then "bp" else if p = 1 then "ap" else "ip"
  devData := fun d =>
    if d = 0 then ⟨"X", none, [("bp", piT)], none, none, []⟩
    else if d = 1 then ⟨"A", some "lib", [("ap", piT)], none, none, []⟩
    else ⟨"B", some "lib", [("ip", piT)], none, none, []⟩
  expanding := some 0
  expandNewLinks := none
  expandNewDevices := none
  debug := false

/-- C1: the claim fails on the code.  `_link_other_port` pops the exterior
latency and records it unchanged on the spliced link; the interior latency
argument of the `link` call is discarded, not summed: splicing with interior
latency `3s` and with `7s` both leave the replacement link at the exterior
`5s`. -/
theorem C1_interior_latency_discarded_counterexample :
    exceptTest (link 3 stC1 0 2 "3s")
      (fun s => decide (alookup s.links (1, 2) = some "5s")) = true ∧
    exceptTest (link 3 stC1 0 2 "7s")
      (fun s => decide (alookup s.links (1, 2) = some "5s")) = true := by
  exact ⟨by decide, by decide⟩

/-- C3 scenario, parameterized by the graph debug flag: device `X` (id 0) is
registered and linked (port 0 on X to port 1 on Y); an expansion procedure
that does nothing leaves that boundary link un-spliced. -/
def mkC3state (dbg : Bool) : GraphState where
  devices := [("X", 0), ("Y", 1)]
  links := [((0, 1), "1s")]
  ports := {0, 1}
  portLink := fun p => if p = 0 then some 1 else if p = 1 then some 0 else none
  portDev := fun p => p
  portName := fun p => if p = 0 then "xp" else "yp"
  devData := fun d =>
    if d = 0 then ⟨"X", none, [("xp", piT)], some (0, none), none, []⟩
    else ⟨"Y", some "lib", [("yp", piT)], some (0, none), none, []⟩
  expanding := none
  expandNewLinks := none
  expandNewDevices := none
  debug := dbg

/-- C3: the claim fails on the code.  The unexpanded-link assertion in
`_expand_device` runs only under `if self.debug:`, and `debug` defaults to
False: with the default flag, an expansion that leaves a link referencing the
expanded device's ports returns successfully instead of raising
the fatal internal error. -/
theorem C3_unexpanded_check_skipped_counterexample :
    (mkC3state false).debug = false ∧
    (_expand_device (fun s => .ok s) (mkC3state false) 0).isOk = true ∧
    exceptTest (_expand_device (fun s => .ok s) (mkC3state false) 0)
      (fun s => linksReferenceName s "X") = true := by
  exact ⟨rfl, by decide, by decide⟩

/-- C8 scenario: a device whose port `p` has Single cardinality
(`limit == 1`), with an empty port cache. -/
def pdevC8 : PDevice where
  dname := "d"
  portinfo := [("p", piT)]
  cache := []
  nextId := 0

/-- Chain two `Device.port` calls — first with an index, then without — and
report whether both succeed and return distinct DevicePort objects. -/
def distinctPortsTest (d : PDevice) (p : String) (i : Int) : Bool :=
  match d.port p (some i) with
  | .error _ => false
  | .ok (d₁, id₁, _) =>
    match d₁.port p none with
    | .error _ => false
    | .ok (_, id₂, _) => decide (id₁ ≠ id₂)

/-- C8: the claim fails on the code.  In the current source, `Device.port` on
a Single-cardinality port with an index present does not raise: it prints a
warning and caches a DevicePort under the key `(name, index)`, an object
distinct from the one `port(name)` returns. -/
theorem C8_single_port_with_index_not_error_counterexample :
    (pdevC8.port "p" (some 0)).isOk = true ∧
    distinctPortsTest pdevC8 "p" 0 = true := by
  exact ⟨by decide, by decide⟩

/-- C10 witness scenario: assembly `X` (id 0) is expanding; its port 0 has no
external link. -/
def stC10 : GraphState where
  devices := [("X", 0)]
  links := []
  ports := ∅
  portLink := fun _ => none
  portDev := fun _ => 0
  portName := fun _ => "p"
  devData := fun _ => ⟨"X", none, [("p", piT)], none, none, []⟩
  expanding := some 0
  expandNewLinks := none
  expandNewDevices := none
  debug := false

/-- C10: while a device `X` is expanding, a `link` call whose first port
belongs to `X` but has no recorded external link returns without error and
leaves the graph state entirely unchanged — `_link_other_port` silently
discards the requested interior connection. -/
theorem C10_expanding_unlinked_boundary_is_silent_noop
    (f : Nat) (st : GraphState) (p0 p1 x : Nat) (lat : String)
    (hexp : st.expanding = some x) (hdev : st.portDev p0 = x)
    (hnl : st.portLink p0 = none) :
    link f st p0 p1 lat = .ok st := by
  unfold link
  rw [hexp]
  show (if st.portDev p0 = x then _link_other_port f st p0 p1
        else if st.portDev p1 = x then _link_other_port f st p1 p0
        else linkMain f st p0 p1 lat) = .ok st
  rw [if_pos hdev]
  unfold _link_other_port
  rw [hnl]

/-- C10 witness: the no-op splice on the concrete state `stC10`. -/
theorem C10_expanding_unlinked_boundary_is_silent_noop_witness :
    link 1 stC10 0 1 "1s" = .ok stC10 :=
  C10_expanding_unlinked_boundary_is_silent_noop 1 stC10 0 1 0 "1s" rfl rfl rfl

/-- C1 (amended): when a `link(p0, p1, latency_int)` call is spliced through
the expanding device (p0 on the expanding device, externally linked to `p2`
with registered exterior latency `latExt`, matching types, `p1`'s device
already registered), the replacement link `(p1, p2)` is recorded with exactly
the exterior latency `latExt`; the interior latency argument is discarded
(latencies are opaque strings and are never summed). -/
theorem C1_spliced_link_keeps_exterior_latency
    (f : Nat) (st : GraphState) (p0 p1 p2 x : Nat) (latInt latExt : String)
    (hexp : st.expanding = some x) (hdev : st.portDev p0 = x)
    (hlink : st.portLink p0 = some p2)
    (htype : check_port_types st p1 p2 = .ok true)
    (hport : p0 ∈ st.ports)
    (hlat : alookup st.links (_orderedtuple p0 p2) = some latExt)
    (hreg : (alookup st.devices ((st.devData (st.portDev p1)).name)).isSome = true) :
    exceptTest (link f st p0 p1 latInt)
      (fun s => decide (alookup s.links (_orderedtuple p1 p2) = some latExt)) = true := by
  unfold link
  rw [hexp]
  show exceptTest
      (if st.portDev p0 = x then _link_other_port f st p0 p1
       else if st.portDev p1 = x then _link_other_port f st p1 p0
       else linkMain f st p0 p1 latInt)
      (fun s => decide (alookup s.links (_orderedtuple p1 p2) = some latExt)) = true
  rw [if_pos hdev]
  have hisnone : (alookup st.devices ((st.devData (st.portDev p1)).name)).isNone = false := by
    rcases Option.isSome_iff_exists.mp hreg with ⟨v, hv⟩
    rw [hv]; rfl
  simp [_link_other_port, hlink, htype, hisnone, hlat, hport, exceptTest, alookup_ains_self]

/-- C1 witness: the amended statement instantiated on `stC1`. -/
theorem C1_spliced_link_keeps_exterior_latency_witness :
    exceptTest (link 3 stC1 0 2 "3s")
      (fun s => decide (alookup s.links (_orderedtuple 2 1) = some "5s")) = true :=
  C1_spliced_link_keeps_exterior_latency 3 stC1 0 2 1 0 "3s" "5s"
    rfl rfl rfl rfl (by decide) rfl rfl

/-- C9 witness scenario: assembly `X` (id 0, rank 2) is expanding; device id 1
is a fresh standalone device named `a` with no partition. -/
def stC9 : GraphState where
  devices := [("X", 0)]
  links := []
  ports := ∅
  portLink := fun _ => none
  portDev := fun _ => 0
  portName := fun _ => "p"
  devData := fun d =>
    if d = 0 then ⟨"X", none, [], some (2, none), none, []⟩
    else ⟨"a", some "lib", [], none, none, []⟩
  expanding := some 0
  expandNewLinks := none
  expandNewDevices := none
  debug := false

/-- C9: an `add(device)` call made while assembly `X` is expanding registers
the device under the dotted name `X.name ++ "." ++ given name`, renames the
device accordingly, and the device ends with `X`'s partition when its own was
`None` and keeps its own otherwise.  (Stated for a device without submodule
structure, the shape expansion procedures add.) -/
theorem C9_add_during_expansion_renames_and_inherits
    (f : Nat) (st : GraphState) (d x : Nat)
    (hexp : st.expanding = some x)
    (hso : (st.devData d).subOwner = none)
    (hsubs : (st.devData d).subs = [])
    (hfresh : (alookup st.devices ((st.devData d).name)).isSome = false) :
    exceptTest (add (f + 1) st d false)
      (fun s =>
        decide (alookup s.devices
          ((st.devData x).name ++ "." ++ (st.devData d).name) = some d) &&
        decide ((s.devData d).name =
          (st.devData x).name ++ "." ++ (st.devData d).name) &&
        decide ((s.devData d).partition =
          (if (st.devData d).partition = none
           then (st.devData x).partition
           else (st.devData d).partition))) = true := by
  simp only [add, addAux, hexp, hfresh, updF_self, hso, hsubs, Option.isSome_none,
    Bool.false_and, Bool.false_eq_true, if_false, exceptTest]
  rw [alookup_ains_self]
  simp only [updF_self, decide_eq_true_eq, Bool.and_eq_true]
  refine ⟨⟨trivial, trivial⟩, ?_⟩
  by_cases hp : (st.devData d).partition = none
  · cases hx : (st.devData x).partition with
    | none => simp [hp, hx]
    | some q => simp [hp, hx]
  · simp [hp]

/-- C9 witness: adding device 1 while `X` expands on `stC9`. -/
theorem C9_add_during_expansion_renames_and_inherits_witness :
    exceptTest (add 1 stC9 1 false)
      (fun s =>
        decide (alookup s.devices
          ((stC9.devData 0).name ++ "." ++ (stC9.devData 1).name) = some 1) &&
        decide ((s.devData 1).name =
          (stC9.devData 0).name ++ "." ++ (stC9.devData 1).name) &&
        decide ((s.devData 1).partition =
          (if (stC9.devData 1).partition = none
           then (stC9.devData 0).partition
           else (stC9.devData 1).partition))) = true :=
  C9_add_during_expansion_renames_and_inherits 0 stC9 1 0 rfl rfl rfl rfl

/-- C3 (amended): the unexpanded-link assertion of `_expand_device` runs only
when the graph's `debug` flag is set.  After a successful expansion call
returning state `st₂` (with the expanded device still registered so its
removal succeeds), `_expand_device` raises iff `st₂.debug` is true and some
remaining link endpoint belongs to a device carrying the expanded device's
name. -/
theorem C3_unexpanded_assertion_only_when_debug
    (impl : GraphState → Except String GraphState) (st : GraphState) (d : Nat)
    (st₂ : GraphState)
    (himpl : impl { st with expanding := some d } = .ok st₂)
    (hreg : (alookup st₂.devices ((st₂.devData d).name)).isSome = true) :
    ((_expand_device impl st d).isOk = false ↔
      (st₂.debug = true ∧
       linksReferenceName (cleanupState st₂ d) ((st₂.devData d).name) = true)) := by
  have hnm : ((cleanupState st₂ d).devData d).name = (st₂.devData d).name := by
    simp [cleanupState, dealloc, updF_self]
  rcases Option.isSome_iff_exists.mp hreg with ⟨v, hv⟩
  unfold _expand_device expandCleanup
  simp only [himpl, hv, hnm]
  cases hdbg : st₂.debug with
  | false =>
    simp only [show (cleanupState st₂ d).debug = st₂.debug from rfl, hdbg]
    simp
  | true =>
    simp only [show (cleanupState st₂ d).debug = st₂.debug from rfl, hdbg]
    cases hlr : linksReferenceName (cleanupState st₂ d) ((st₂.devData d).name) with
    | false => simp [hlr]
    | true => simp [hlr]

/-- C3 witness: on the debug-enabled variant of the C3 scenario the identity
expansion leaves the boundary link in place and `_expand_device` raises. -/
theorem C3_unexpanded_assertion_only_when_debug_witness :
    (_expand_device (fun s => .ok s) (mkC3state true) 0).isOk = false :=
  (C3_unexpanded_assertion_only_when_debug (fun s => .ok s) (mkC3state true) 0
      { mkC3state true with expanding := some 0 } rfl (by decide)).mpr
    ⟨rfl, by decide⟩

/-- Whether a `Device.port` result carries the Single-port warning flag. -/
def portWarned : Except String (PDevice × Nat × Bool) → Bool
  | .ok r => r.2.2
  | .error _ => false

/-- Cache well-formedness maintained by the `Device.port` API: a tuple key
never stores a multi-port counter. -/
def cacheWF (d : PDevice) : Bool :=
  d.cache.all (fun kv =>
    match kv with
    | (Sum.inr _, Sum.inl _) => false
    | _ => true)

theorem alookup_mem [DecidableEq α] {l : List (α × β)} {k : α} {v : β}
    (h : alookup l k = some v) : (k, v) ∈ l := by
  induction l with
  | nil => simp [alookup] at h
  | cons kv t ih =>
    rcases kv with ⟨a, b⟩
    by_cases hak : a = k
    · subst hak
      have hb : b = v := by
        have hsome : (some b : Option β) = some v := by simpa [alookup] using h
        exact Option.some.inj hsome
      subst hb
      exact List.mem_cons_self _ _
    · simp only [alookup, if_neg hak] at h
      exact List.mem_cons_of_mem _ (ih h)

/-- C8 (amended): on the current source, calling `Device.port(name, i)` with
an index on a Single-cardinality port is not an error: the call succeeds and
merely sets the warning flag (the printed WARNING), caching a DevicePort
under the key `(name, i)`. -/
theorem C8_single_port_with_index_warns_and_succeeds
    (d : PDevice) (p : String) (i : Int) (info : PortInfoE)
    (hpi : alookup d.portinfo p = some info) (hlim : info.limit = some 1)
    (hwf : cacheWF d = true) :
    (d.port p (some i)).isOk = true ∧ portWarned (d.port p (some i)) = true := by
  unfold PDevice.port
  rw [hpi]
  simp only [if_pos hlim]
  unfold mkPort
  cases hc : alookup d.cache (Sum.inr (p, some i)) with
  | none => exact ⟨rfl, rfl⟩
  | some val =>
    cases val with
    | inr pid => exact ⟨rfl, rfl⟩
    | inl n =>
      exfalso
      have hmem := alookup_mem hc
      have := List.all_eq_true.mp hwf _ hmem
      simp at this

/-- C8 witness: the amended statement instantiated on the concrete Single-port
device. -/
theorem C8_single_port_with_index_warns_and_succeeds_witness :
    (pdevC8.port "p" (some 0)).isOk = true ∧
    portWarned (pdevC8.port "p" (some 0)) = true :=
  C8_single_port_with_index_warns_and_succeeds pdevC8 "p" 0 piT rfl rfl rfl

theorem selectAssemblies_all_library (st : GraphState) (name : Option String)
    (rank : Option Int) :
    ∀ (L : List Nat) (acc : Finset Nat),
      (∀ dv ∈ L, (st.devData dv).library.isSome = true) →
      selectAssemblies st name rank L acc = .ok acc := by
  intro L
  induction L with
  | nil => intro acc _; rfl
  | cons dv t ih =>
    intro acc h
    have hd := h dv (List.mem_cons_self dv t)
    unfold selectAssemblies
    rw [hd]
    exact ih acc (fun x hx => h x (List.mem_cons_of_mem _ hx))

/-- C5: `flatten` is a fixed point on a fully flattened graph.  When every
registered device has a library (is primitive) and any supplied candidate set
consists of registered devices, `flatten` — for every combination of `levels`,
`name`, `rank` and candidate-set arguments — returns the state unchanged. -/
theorem C5_flatten_fixed_point_on_flat_graph
    (f : Nat) (impl : Nat → GraphState → Except String GraphState) (st : GraphState)
    (levels : Option Int) (name : Option String) (rank : Option Int)
    (expandArg : Option (List Nat))
    (hlib : ∀ kv ∈ st.devices, (st.devData kv.2).library.isSome = true)
    (hexp : ∀ e, expandArg = some e → ∀ dv ∈ e, ∃ kv ∈ st.devices, kv.2 = dv) :
    flatten (f + 1) impl st levels name rank expandArg = .ok st := by
  show flattenPass impl st levels name rank expandArg
      (fun st' lv => flatten f impl st' lv name rank none) = .ok st
  unfold flattenPass
  by_cases hl : levels = some 0
  · rw [if_pos hl]
  · rw [if_neg hl]
    have hall : ∀ dv ∈ (match expandArg with
        | some e => e
        | none => st.devices.map (fun (kv : String × Nat) => kv.2)),
        (st.devData dv).library.isSome = true := by
      cases expandArg with
      | none =>
        intro dv hdv
        rcases List.mem_map.mp hdv with ⟨kv, hkv, rfl⟩
        exact hlib kv hkv
      | some e =>
        intro dv hdv
        rcases hexp e rfl dv hdv with ⟨kv, hkv, rfl⟩
        exact hlib kv hkv
    rw [selectAssemblies_all_library st name rank _ ∅ hall]
    simp

/-- C5 witness scenario: a single primitive device. -/
def stC5 : GraphState where
  devices := [("A", 0)]
  links := []
  ports := ∅
  portLink := fun _ => none
  portDev := fun _ => 0
  portName := fun _ => "p"
  devData := fun _ => ⟨"A", some "lib", [], none, none, []⟩
  expanding := none
  expandNewLinks := none
  expandNewDevices := none
  debug := false

/-- C5 witness: flattening the already-flat one-device graph changes
nothing. -/
theorem C5_flatten_fixed_point_on_flat_graph_witness :
    flatten 1 (fun _ s => .ok s) stC5 none none none none = .ok stC5 :=
  C5_flatten_fixed_point_on_flat_graph 0 (fun _ s => .ok s) stC5 none none none none
    (by decide) (fun e he => nomatch he)

theorem firstErr_ok_iff (g : α → Except String Unit) (L : List α) :
    firstErr g L = .ok () ↔ ∀ x ∈ L, g x = .ok () := by
  induction L with
  | nil => simp [firstErr]
  | cons x t ih =>
    unfold firstErr
    cases hg : g x with
    | error e =>
      constructor
      · intro h; simp at h
      · intro h
        have := h x (List.mem_cons_self x t)
        rw [hg] at this
        simp at this
    | ok u =>
      cases u
      rw [ih]
      constructor
      · intro h y hy
        rcases List.mem_cons.mp hy with rfl | hy'
        · exact hg
        · exact h y hy'
      · intro h y hy
        exact h y (List.mem_cons_of_mem _ hy)

theorem verifyDevice_ok_iff (st : GraphState) (did : Nat) :
    verifyDevice st did = .ok () ↔
      ∀ pi ∈ (st.devData did).portinfo,
        pi.2.required = true → devPortLinked st did pi.1 = true := by
  unfold verifyDevice
  rw [firstErr_ok_iff]
  refine forall_congr' (fun pi => forall_congr' (fun _ => ?_))
  cases hreq : pi.2.required <;> cases hlnk : devPortLinked st did pi.1 <;>
    simp [hreq, hlnk]

/-- C7: `verify_links` raises iff some registered device has a port name
marked required in its schema with no entry of the link registry touching
that `(device, port name)` pair; otherwise it returns normally (the embedded
check is a pure reader of the graph, as is the Python method, whose `d2ports`
is a local). -/
theorem C7_verify_links_raises_iff_required_port_unlinked (st : GraphState) :
    (verify_links st).isOk = false ↔
      ∃ kv ∈ st.devices, ∃ pi ∈ (st.devData kv.2).portinfo,
        pi.2.required = true ∧ devPortLinked st kv.2 pi.1 = false := by
  have hnotok : ((verify_links st).isOk = false) ↔ ¬ (verify_links st = .ok ()) := by
    cases hv : verify_links st with
    | ok u => cases u; simp
    | error e => simp
  have hiff : verify_links st = .ok () ↔
      ∀ kv ∈ st.devices, ∀ pi ∈ (st.devData kv.2).portinfo,
        pi.2.required = true → devPortLinked st kv.2 pi.1 = true := by
    unfold verify_links
    rw [firstErr_ok_iff]
    exact forall_congr' (fun kv => forall_congr' (fun _ => verifyDevice_ok_iff st kv.2))
  rw [hnotok, hiff]
  push_neg
  constructor
  · rintro ⟨kv, hkv, pi, hpi, hreq, hlnk⟩
    exact ⟨kv, hkv, pi, hpi, hreq, by simpa using hlnk⟩
  · rintro ⟨kv, hkv, pi, hpi, hreq, hlnk⟩
    exact ⟨kv, hkv, pi, hpi, hreq, by simp [hlnk]⟩

/-- Python dict equality on two association lists: the same key set with the
same values (Python `dict.__eq__` ignores insertion order). -/
def adictEq [DecidableEq α] [DecidableEq β] (l₁ l₂ : List (α × β)) : Bool :=
  l₁.all (fun kv => decide (alookup l₂ kv.1 = some kv.2)) &&
  l₂.all (fun kv => decide (alookup l₁ kv.1 = some kv.2))

/-- Canonicalization-symmetry observations on the results of two `link` calls:
both succeed, the device registries are dict-equal, the link registries are
identical and hold the latency under the canonical unordered key, the ports
sets are identical, and the `link` partner fields of both ports agree. -/
def linkStatesAgree :
    Except String GraphState → Except String GraphState → Nat → Nat → String → Bool
  | .ok s₁, .ok s₂, a, b, lat =>
    adictEq s₁.devices s₂.devices &&
    decide (s₁.links = s₂.links) &&
    decide (alookup s₁.links (_orderedtuple a b) = some lat) &&
    decide (s₁.ports = s₂.ports) &&
    decide (s₁.portLink a = s₂.portLink a) &&
    decide (s₁.portLink b = s₂.portLink b)
  | _, _, _, _, _ => false

theorem alookup_of_mem_nodup [DecidableEq α] {l : List (α × β)}
    (hnd : (l.map Prod.fst).Nodup) {kv : α × β} (h : kv ∈ l) :
    alookup l kv.1 = some kv.2 := by
  induction l with
  | nil => cases h
  | cons hd t ih =>
    rcases hd with ⟨hk, hv⟩
    have hnd' : (hk :: t.map Prod.fst).Nodup := by simpa using hnd
    rcases List.nodup_cons.mp hnd' with ⟨hni, hndt⟩
    rcases List.mem_cons.mp h with rfl | ht
    · simp [alookup]
    · have hne : hk ≠ kv.1 := by
        intro he
        apply hni
        rw [he]
        exact List.mem_map_of_mem Prod.fst ht
      simp only [alookup, if_neg hne]
      exact ih hndt ht

theorem adictEq_of_lookup_eq [DecidableEq α] [DecidableEq β] {l₁ l₂ : List (α × β)}
    (h : ∀ k, alookup l₁ k = alookup l₂ k)
    (h₁ : (l₁.map Prod.fst).Nodup) (h₂ : (l₂.map Prod.fst).Nodup) :
    adictEq l₁ l₂ = true := by
  unfold adictEq
  simp only [Bool.and_eq_true, List.all_eq_true, decide_eq_true_eq]
  constructor
  · intro kv hkv
    rw [← h kv.1]
    exact alookup_of_mem_nodup h₁ hkv
  · intro kv hkv
    rw [h kv.1]
    exact alookup_of_mem_nodup h₂ hkv

theorem not_mem_keys_of_alookup_none [DecidableEq α] {l : List (α × β)} {k : α}
    (h : alookup l k = none) : k ∉ l.map Prod.fst := by
  induction l with
  | nil => simp
  | cons hd t ih =>
    rcases hd with ⟨hk, hv⟩
    simp only [alookup] at h
    by_cases he : hk = k
    · rw [if_pos he] at h; cases h
    · rw [if_neg he] at h
      simp only [List.map_cons, List.mem_cons]
      rintro (rfl | hm)
      · exact he rfl
      · exact ih h hm

theorem _orderedtuple_comm {a b : Nat} (h : a ≠ b) :
    _orderedtuple a b = _orderedtuple b a := by
  unfold _orderedtuple
  rcases Nat.lt_or_ge a b with h1 | h1
  · rw [if_pos h1, if_neg (Nat.lt_asymm h1)]
  · have h2 : b < a := Nat.lt_of_le_of_ne h1 (Ne.symm h)
    rw [if_neg (Nat.not_lt.mpr h1), if_pos h2]

theorem check_port_types_comm (st : GraphState) (a b : Nat)
    (h : check_port_types st a b = .ok true) :
    check_port_types st b a = .ok true := by
  unfold check_port_types at h ⊢
  cases ha : portinfoType st a with
  | error e =>
    rw [ha] at h
    exact Except.noConfusion h
  | ok t0 =>
    cases hb : portinfoType st b with
    | error e =>
      rw [ha, hb] at h
      exact Except.noConfusion h
    | ok t1 =>
      simp only [ha, hb] at h ⊢
      simp only [Except.ok.injEq, decide_eq_true_eq] at h
      simp [h]

/-- `add` on a standalone device (no `subOwner`, no `subs`) outside any
expansion: one fresh registration appended at the end of the registry. -/
theorem add_simple (f : Nat) (st : GraphState) (d : Nat) (sub : Bool)
    (hso : (st.devData d).subOwner = none) (hsubs : (st.devData d).subs = [])
    (hexp : st.expanding = none)
    (hfresh : alookup st.devices ((st.devData d).name) = none) :
    add (f + 1) st d sub = .ok { st with
      devices := st.devices ++ [((st.devData d).name, d)],
      expandNewDevices := Option.map (fun s => insert d s) st.expandNewDevices } := by
  unfold add
  simp only [addAux, hexp, hfresh, Option.isNone_none, Option.isSome_none,
    Bool.false_eq_true, if_false, hso, Bool.false_and, hsubs]
  rw [ains_fresh d hfresh]

theorem skip_add_of_some (f : Nat) (stg : GraphState) (p v : Nat)
    (h : alookup stg.devices ((stg.devData (stg.portDev p)).name) = some v) :
    (if (alookup stg.devices ((stg.devData (stg.portDev p)).name)).isNone
     then add f stg (stg.portDev p) false else .ok stg) = .ok stg := by
  rw [h]; rfl

theorem do_add_of_none (f : Nat) (stg S : GraphState) (p : Nat)
    (h : alookup stg.devices ((stg.devData (stg.portDev p)).name) = none)
    (hadd : add f stg (stg.portDev p) false = .ok S) :
    (if (alookup stg.devices ((stg.devData (stg.portDev p)).name)).isNone
     then add f stg (stg.portDev p) false else .ok stg) = .ok S := by
  rw [h]; exact hadd

/-- The success path of `linkMain`, with the two auto-`add` steps given as
equations: the final state inserts both ports into the usage set, sets both
`link` fields, and records the latency under the canonical key. -/
theorem linkMain_explicit (f : Nat) (st stA st₂ : GraphState) (p0 p1 : Nat) (lat : String)
    (hmem : ¬ (p0 ∈ st.ports ∨ p1 ∈ st.ports))
    (htype : check_port_types st p0 p1 = .ok true)
    (hadd1 : (if (alookup st.devices ((st.devData (st.portDev p0)).name)).isNone
              then add f st (st.portDev p0) false else .ok st) = .ok stA)
    (hadd2 : (if (alookup stA.devices ((stA.devData (stA.portDev p1)).name)).isNone
              then add f stA (stA.portDev p1) false else .ok stA) = .ok st₂)
    (hl0 : st₂.portLink p0 = none) (hl1 : st₂.portLink p1 = none) :
    linkMain f st p0 p1 lat = .ok { st₂ with
      ports := insert p1 (insert p0 st₂.ports),
      portLink := updF (updF st₂.portLink p0 (some p1)) p1 (some p0),
      links := ains st₂.links (_orderedtuple p0 p1) lat,
      expandNewLinks := Option.map (fun l => l ++ [_orderedtuple p0 p1]) st₂.expandNewLinks } := by
  unfold linkMain
  rw [if_neg hmem]
  simp only [htype, hadd1, hadd2]
  rw [if_pos (show st₂.portLink p0 = none ∧ st₂.portLink p1 = none from ⟨hl0, hl1⟩)]

/-- The component comparison behind C6: two success states that differ only in
the insertion order of the registrations and of the two port-set/`link`-field
updates are indistinguishable on every observation of the claim. -/
theorem linkStatesAgree_final (a b : Nat) (hab : a ≠ b) (lat : String)
    (s₁ s₂ : GraphState)
    (hdev : ∀ k, alookup s₁.devices k = alookup s₂.devices k)
    (hnd₁ : (s₁.devices.map Prod.fst).Nodup) (hnd₂ : (s₂.devices.map Prod.fst).Nodup)
    (hlinks : s₁.links = s₂.links) (hports : s₁.ports = s₂.ports)
    (hpl : s₁.portLink = s₂.portLink) :
    linkStatesAgree
      (.ok { s₁ with
        ports := insert b (insert a s₁.ports),
        portLink := updF (updF s₁.portLink a (some b)) b (some a),
        links := ains s₁.links (_orderedtuple a b) lat,
        expandNewLinks := Option.map (fun l => l ++ [_orderedtuple a b]) s₁.expandNewLinks })
      (.ok { s₂ with
        ports := insert a (insert b s₂.ports),
        portLink := updF (updF s₂.portLink b (some a)) a (some b),
        links := ains s₂.links (_orderedtuple b a) lat,
        expandNewLinks := Option.map (fun l => l ++ [_orderedtuple b a]) s₂.expandNewLinks })
      a b lat = true := by
  have hkey := _orderedtuple_comm hab
  unfold linkStatesAgree
  simp only [Bool.and_eq_true, decide_eq_true_eq]
  refine ⟨⟨⟨⟨⟨?_, ?_⟩, ?_⟩, ?_⟩, ?_⟩, ?_⟩
  · exact adictEq_of_lookup_eq hdev hnd₁ hnd₂
  · rw [hlinks, hkey]
  · exact alookup_ains_self _ _ _
  · rw [hports]
    exact Finset.Insert.comm b a _
  · rw [hpl]
    simp [updF, hab]
  · rw [hpl]
    simp [updF, Ne.symm hab]

/-- The state after auto-registering port `p`'s standalone device afresh. -/
def addedState (st : GraphState) (p : Nat) : GraphState :=
  { st with
    devices := st.devices ++ [((st.devData (st.portDev p)).name, st.portDev p)],
    expandNewDevices := Option.map (fun s => insert (st.portDev p) s) st.expandNewDevices }

theorem nodup_append_one {l : List (String × Nat)} {k : String} {v : Nat}
    (hnd : (l.map Prod.fst).Nodup) (hfresh : alookup l k = none) :
    ((l ++ [(k, v)]).map Prod.fst).Nodup := by
  rw [List.map_append]
  refine List.Nodup.append hnd (List.nodup_singleton _) ?_
  intro y hy hy2
  simp only [List.map_cons, List.map_nil, List.mem_singleton] at hy2
  subst hy2
  exact not_mem_keys_of_alookup_none hfresh hy

theorem nodup_append_two {l : List (String × Nat)} {k₁ k₂ : String} {v₁ v₂ : Nat}
    (hnd : (l.map Prod.fst).Nodup) (h₁ : alookup l k₁ = none) (h₂ : alookup l k₂ = none)
    (hne : k₁ ≠ k₂) :
    (((l ++ [(k₁, v₁)]) ++ [(k₂, v₂)]).map Prod.fst).Nodup := by
  have h₂' : alookup (l ++ [(k₁, v₁)]) k₂ = none := by
    rw [alookup_append_right h₂]
    simp [alookup, hne]
  exact nodup_append_one (nodup_append_one hnd h₁) h₂'

theorem alookup_two_appends_comm {l : List (String × Nat)} {k₁ k₂ : String} {v₁ v₂ : Nat}
    (_h₁ : alookup l k₁ = none) (_h₂ : alookup l k₂ = none) (hne : k₁ ≠ k₂) (k : String) :
    alookup ((l ++ [(k₁, v₁)]) ++ [(k₂, v₂)]) k =
      alookup ((l ++ [(k₂, v₂)]) ++ [(k₁, v₁)]) k := by
  cases hk : alookup l k with
  | some v =>
    rw [alookup_append_left (alookup_append_left hk _) _,
        alookup_append_left (alookup_append_left hk _) _]
  | none =>
    rw [List.append_assoc, List.append_assoc, alookup_append_right hk,
        alookup_append_right hk]
    by_cases hk1 : k₁ = k
    · subst hk1
      simp [alookup, hne, Ne.symm hne]
    · by_cases hk2 : k₂ = k
      · subst hk2
        simp [alookup, hk1, Ne.symm hne]
      · simp [alookup, hk1, hk2]

/-- C6: canonicalization symmetry of `link`.  Outside any expansion, for two
distinct unlinked type-compatible ports of well-formed devices (standalone:
no submodule structure, consistent with realistic fresh registration;
distinct device names when the two devices differ; duplicate-free registry,
as Python dicts guarantee), `link(a, b, l)` and `link(b, a, l)` both succeed
and produce indistinguishable graph states: dict-equal device registries,
identical link registries holding `l` under the canonical unordered key,
identical ports sets, and the same `link` partner fields on both ports. -/
theorem C6_link_canonicalization_symmetry
    (f : Nat) (st : GraphState) (a b : Nat) (lat : String)
    (hexp : st.expanding = none)
    (hab : a ≠ b)
    (hpa : a ∉ st.ports) (hpb : b ∉ st.ports)
    (hla : st.portLink a = none) (hlb : st.portLink b = none)
    (htype : check_port_types st a b = .ok true)
    (hsoA : (st.devData (st.portDev a)).subOwner = none)
    (hsubsA : (st.devData (st.portDev a)).subs = [])
    (hsoB : (st.devData (st.portDev b)).subOwner = none)
    (hsubsB : (st.devData (st.portDev b)).subs = [])
    (hnames : st.portDev a = st.portDev b ∨
      (st.devData (st.portDev a)).name ≠ (st.devData (st.portDev b)).name)
    (hnd : (st.devices.map Prod.fst).Nodup) :
    linkStatesAgree (link (f + 1) st a b lat) (link (f + 1) st b a lat) a b lat = true := by
  have htypeBA := check_port_types_comm st a b htype
  have hmem1 : ¬ (a ∈ st.ports ∨ b ∈ st.ports) := by
    rintro (h | h)
    exacts [hpa h, hpb h]
  have hmem2 : ¬ (b ∈ st.ports ∨ a ∈ st.ports) := by
    rintro (h | h)
    exacts [hpb h, hpa h]
  unfold link
  rw [hexp]
  show linkStatesAgree (linkMain (f + 1) st a b lat) (linkMain (f + 1) st b a lat)
      a b lat = true
  cases hA : alookup st.devices ((st.devData (st.portDev a)).name) with
  | some vA =>
    cases hB : alookup st.devices ((st.devData (st.portDev b)).name) with
    | some vB =>
      have e1 := linkMain_explicit (f + 1) st st st a b lat hmem1 htype
        (skip_add_of_some (f + 1) st a vA hA) (skip_add_of_some (f + 1) st b vB hB) hla hlb
      have e2 := linkMain_explicit (f + 1) st st st b a lat hmem2 htypeBA
        (skip_add_of_some (f + 1) st b vB hB) (skip_add_of_some (f + 1) st a vA hA) hlb hla
      rw [e1, e2]
      exact linkStatesAgree_final a b hab lat st st (fun k => rfl) hnd hnd rfl rfl rfl
    | none =>
      have haddB : add (f + 1) st (st.portDev b) false = .ok (addedState st b) :=
        add_simple f st (st.portDev b) false hsoB hsubsB hexp hB
      have hA2 : alookup (addedState st b).devices
          (((addedState st b).devData ((addedState st b).portDev a)).name) = some vA := by
        show alookup (st.devices ++ [((st.devData (st.portDev b)).name, st.portDev b)])
          ((st.devData (st.portDev a)).name) = some vA
        exact alookup_append_left hA _
      have e1 := linkMain_explicit (f + 1) st st (addedState st b) a b lat hmem1 htype
        (skip_add_of_some (f + 1) st a vA hA)
        (do_add_of_none (f + 1) st (addedState st b) b hB haddB) hla hlb
      have e2 := linkMain_explicit (f + 1) st (addedState st b) (addedState st b) b a lat
        hmem2 htypeBA
        (do_add_of_none (f + 1) st (addedState st b) b hB haddB)
        (skip_add_of_some (f + 1) (addedState st b) a vA hA2) hlb hla
      rw [e1, e2]
      exact linkStatesAgree_final a b hab lat (addedState st b) (addedState st b)
        (fun k => rfl) (nodup_append_one hnd hB) (nodup_append_one hnd hB) rfl rfl rfl
  | none =>
    have haddA : add (f + 1) st (st.portDev a) false = .ok (addedState st a) :=
      add_simple f st (st.portDev a) false hsoA hsubsA hexp hA
    cases hB : alookup st.devices ((st.devData (st.portDev b)).name) with
    | some vB =>
      have hB2 : alookup (addedState st a).devices
          (((addedState st a).devData ((addedState st a).portDev b)).name) = some vB := by
        show alookup (st.devices ++ [((st.devData (st.portDev a)).name, st.portDev a)])
          ((st.devData (st.portDev b)).name) = some vB
        exact alookup_append_left hB _
      have e1 := linkMain_explicit (f + 1) st (addedState st a) (addedState st a) a b lat
        hmem1 htype
        (do_add_of_none (f + 1) st (addedState st a) a hA haddA)
        (skip_add_of_some (f + 1) (addedState st a) b vB hB2) hla hlb
      have e2 := linkMain_explicit (f + 1) st st (addedState st a) b a lat hmem2 htypeBA
        (skip_add_of_some (f + 1) st b vB hB)
        (do_add_of_none (f + 1) st (addedState st a) a hA haddA) hlb hla
      rw [e1, e2]
      exact linkStatesAgree_final a b hab lat (addedState st a) (addedState st a)
        (fun k => rfl) (nodup_append_one hnd hA) (nodup_append_one hnd hA) rfl rfl rfl
    | none =>
      have haddB : add (f + 1) st (st.portDev b) false = .ok (addedState st b) :=
        add_simple f st (st.portDev b) false hsoB hsubsB hexp hB
      rcases hnames with hd | hne
      · -- both ports on the same (unregistered) device
        have hlook1 : alookup (addedState st a).devices
            (((addedState st a).devData ((addedState st a).portDev b)).name) =
              some (st.portDev a) := by
          show alookup (st.devices ++ [((st.devData (st.portDev a)).name, st.portDev a)])
            ((st.devData (st.portDev b)).name) = some (st.portDev a)
          rw [← hd, alookup_append_right hA]
          simp [alookup]
        have hlook2 : alookup (addedState st b).devices
            (((addedState st b).devData ((addedState st b).portDev a)).name) =
              some (st.portDev b) := by
          show alookup (st.devices ++ [((st.devData (st.portDev b)).name, st.portDev b)])
            ((st.devData (st.portDev a)).name) = some (st.portDev b)
          rw [hd, alookup_append_right hB]
          simp [alookup]
        have e1 := linkMain_explicit (f + 1) st (addedState st a) (addedState st a) a b lat
          hmem1 htype
          (do_add_of_none (f + 1) st (addedState st a) a hA haddA)
          (skip_add_of_some (f + 1) (addedState st a) b (st.portDev a) hlook1) hla hlb
        have e2 := linkMain_explicit (f + 1) st (addedState st b) (addedState st b) b a lat
          hmem2 htypeBA
          (do_add_of_none (f + 1) st (addedState st b) b hB haddB)
          (skip_add_of_some (f + 1) (addedState st b) a (st.portDev b) hlook2) hlb hla
        rw [e1, e2]
        refine linkStatesAgree_final a b hab lat (addedState st a) (addedState st b)
          ?_ (nodup_append_one hnd hA) (nodup_append_one hnd hB) rfl rfl rfl
        intro k
        show alookup (st.devices ++ [((st.devData (st.portDev a)).name, st.portDev a)]) k =
          alookup (st.devices ++ [((st.devData (st.portDev b)).name, st.portDev b)]) k
        rw [hd]
      · -- two distinct unregistered devices with distinct names
        have habsB : alookup (addedState st a).devices
            (((addedState st a).devData ((addedState st a).portDev b)).name) = none := by
          show alookup (st.devices ++ [((st.devData (st.portDev a)).name, st.portDev a)])
            ((st.devData (st.portDev b)).name) = none
          rw [alookup_append_right hB]
          simp [alookup, hne]
        have habsA : alookup (addedState st b).devices
            (((addedState st b).devData ((addedState st b).portDev a)).name) = none := by
          show alookup (st.devices ++ [((st.devData (st.portDev b)).name, st.portDev b)])
            ((st.devData (st.portDev a)).name) = none
          rw [alookup_append_right hA]
          simp [alookup, Ne.symm hne]
        have haddB2 : add (f + 1) (addedState st a) ((addedState st a).portDev b) false =
            .ok (addedState (addedState st a) b) :=
          add_simple f (addedState st a) ((addedState st a).portDev b) false hsoB hsubsB
            hexp habsB
        have haddA2 : add (f + 1) (addedState st b) ((addedState st b).portDev a) false =
            .ok (addedState (addedState st b) a) :=
          add_simple f (addedState st b) ((addedState st b).portDev a) false hsoA hsubsA
            hexp habsA
        have e1 := linkMain_explicit (f + 1) st (addedState st a)
          (addedState (addedState st a) b) a b lat hmem1 htype
          (do_add_of_none (f + 1) st (addedState st a) a hA haddA)
          (do_add_of_none (f + 1) (addedState st a) (addedState (addedState st a) b) b
            habsB haddB2) hla hlb
        have e2 := linkMain_explicit (f + 1) st (addedState st b)
          (addedState (addedState st b) a) b a lat hmem2 htypeBA
          (do_add_of_none (f + 1) st (addedState st b) b hB haddB)
          (do_add_of_none (f + 1) (addedState st b) (addedState (addedState st b) a) a
            habsA haddA2) hlb hla
        rw [e1, e2]
        exact linkStatesAgree_final a b hab lat (addedState (addedState st a) b)
          (addedState (addedState st b) a)
          (fun k => alookup_two_appends_comm hA hB hne k)
          (nodup_append_two hnd hA hB hne)
          (nodup_append_two hnd hB hA (Ne.symm hne)) rfl rfl rfl

/-- C6 witness scenario: two unregistered standalone devices `A`, `B` with
compatible Single ports 10 and 11, in an empty graph. -/
def stC6 : GraphState where
  devices := []
  links := []
  ports := ∅
  portLink := fun _ => none
  portDev := fun p => if p = 10 then 1 else 2
  portName := fun p => if p = 10 then "p" else "q"
  devData := fun d =>
    if d = 1 then ⟨"A", some "lib", [("p", piT)], none, none, []⟩
    else ⟨"B", some "lib", [("q", piT)], none, none, []⟩
  expanding := none
  expandNewLinks := none
  expandNewDevices := none
  debug := false

/-- C6 witness: linking ports 10 and 11 of `stC6` in both orders. -/
theorem C6_link_canonicalization_symmetry_witness :
    linkStatesAgree (link 3 stC6 10 11 "1s") (link 3 stC6 11 10 "1s") 10 11 "1s" = true :=
  C6_link_canonicalization_symmetry 2 stC6 10 11 "1s" rfl (by decide) (by decide)
    (by decide) rfl rfl rfl rfl rfl rfl rfl (Or.inr (by decide)) (by decide)

end AhpGraph
